import Mathlib

/-!
Shallow embedding of the workflow orchestration engine
(src/workflow-orchestrator.py) and verification of the specification
claims about it.

Modelling conventions:
- Python values that flow through the state are modelled by the inductive
  type Value (None, bool, int, str, list, dict).  Python dicts are
  association lists in insertion order; assignment replaces the value at
  the first occurrence of the key or appends a new entry at the end,
  exactly as Python preserves insertion order.
- A Python method that can raise is modelled as returning Except String,
  the error string naming the exception class.  Exact message texts are
  abbreviated.
- Wall-clock time (datetime.now) is opaque to every claim; it is modelled
  by the constant placeholder string nowIso.
- asyncio scheduling is sequential in the source loop (one node at a time);
  the loop is modelled as a fuel-indexed recursion whose fuel is the
  iteration budget remaining below the fixed cap of 1000.
-/

namespace Workflow

/-- Python values stored in the workflow state (None, bool, int, str,
list, dict in insertion order). -/
inductive Value where
  | none : Value
  | bool : Bool → Value
  | int : Int → Value
  | str : String → Value
  | list : List Value → Value
  | dict : List (String × Value) → Value

/-- Lookup in a Python dict modelled as an association list (first
occurrence wins; dicts built through aset never hold duplicate keys). -/
def alookup {α : Type} : List (String × α) → String → Option α
  | [], _ => Option.none
  | (k, v) :: rest, key => if k = key then some v else alookup rest key

/-- Python dict assignment d[k] = v: replace the value at the first
occurrence of k, or append the entry at the end (insertion order). -/
def aset {α : Type} : List (String × α) → String → α → List (String × α)
  | [], key, v => [(key, v)]
  | (k, w) :: rest, key, v =>
      if k = key then (key, v) :: rest else (k, w) :: aset rest key v

/-- Python dict.get(k, default). -/
def dGetD {α : Type} (d : List (String × α)) (key : String) (dflt : α) : α :=
  (alookup d key).getD dflt

/-- Python truthiness of a Value. -/
def Value.truthy : Value → Bool
  | .none => false
  | .bool b => b
  | .int n => n != 0
  | .str s => s != ""
  | .list [] => false
  | .list (_ :: _) => true
  | .dict [] => false
  | .dict (_ :: _) => true

/-- Python obj.get(key): succeeds with the dict lookup (defaulting to
None) when obj is a dict, raises AttributeError otherwise — in
particular when obj is None. -/
def pyGet (v : Value) (key : String) : Except String Value :=
  match v with
  | .dict d => .ok (dGetD d key Value.none)
  | _ => .error "AttributeError: object has no attribute get"

/-- Python binary + on the value types the engine can reach: numbers
(bool counts as 0/1), strings, lists; anything else raises TypeError. -/
def pyAdd : Value → Value → Except String Value
  | .int a, .int b => .ok (.int (a + b))
  | .int a, .bool b => .ok (.int (a + (if b then 1 else 0)))
  | .bool a, .int b => .ok (.int ((if a then 1 else 0) + b))
  | .bool a, .bool b => .ok (.int ((if a then 1 else 0) + (if b then 1 else 0)))
  | .str a, .str b => .ok (.str (a ++ b))
  | .list a, .list b => .ok (.list (a ++ b))
  | _, _ => .error "TypeError: unsupported operand types for +"

/-- Python dict spread of b into a, as in the source merge expression:
every entry of b is assigned into a in order (b wins on key conflict).
Raises TypeError when either operand is not a dict. -/
def pyMergeVals : Value → Value → Except String Value
  | .dict a, .dict b => .ok (.dict (b.foldl (fun acc kv => aset acc kv.1 kv.2) a))
  | _, _ => .error "TypeError: object is not a mapping"

/-- Python list(range(n)): the attempt indices of the retry loop;
empty when n is not positive. -/
def pyRange (n : Int) : List Nat := List.range n.toNat

/-- Python negative-index list access l[i] (None models IndexError).
For i less than 0 the index counts from the end; note -0 = 0, so an
argument of 0 reads the FIRST element. -/
def pyIndex {α : Type} (l : List α) (i : Int) : Option α :=
  if 0 ≤ i then l.get? i.toNat
  else if 0 ≤ (l.length : Int) + i then l.get? ((l.length : Int) + i).toNat
  else Option.none

/-- Python slice l[:stop] with a possibly negative stop; note that for
stop = -0 = 0 the result is the empty list. -/
def pySliceTo {α : Type} (l : List α) (stop : Int) : List α :=
  if 0 ≤ stop then l.take stop.toNat
  else l.take ((l.length : Int) + stop).toNat

/-- Python isinstance(v, list). -/
def Value.isList : Value → Bool
  | .list _ => true
  | _ => false

/-- State update operators (class OperatorType). -/
inductive OperatorType where
  | OVERRIDE | APPEND | MERGE | INCREMENT
deriving DecidableEq, Repr

/-- class StateManager: the state snapshot, the checkpoint stack
(chronological order, most recent last) and the version counter. -/
structure StateManager where
  state : List (String × Value)
  checkpoints : List (List (String × Value))
  version : Nat

/-- One iteration of the key loop in StateManager.update: apply one
key/value pair of the updates dict to the working copy new_state under
the given operator.  APPEND wraps a non-list value in a singleton list
and concatenates; MERGE spreads both operands as dicts; INCREMENT adds
to the prior value, defaulting to 0.  TypeError propagates as in
Python. -/
def applyOp (ns : List (String × Value)) (key : String) (v : Value)
    (op : OperatorType) : Except String (List (String × Value)) :=
  match op with
  | .OVERRIDE => .ok (aset ns key v)
  | .APPEND =>
      let prior := dGetD ns key (Value.list [])
      let items : Value := if v.isList then v else .list [v]
      match pyAdd prior items with
      | .ok w => .ok (aset ns key w)
      | .error e => .error e
  | .MERGE =>
      let prior := dGetD ns key (Value.dict [])
      match pyMergeVals prior v with
      | .ok w => .ok (aset ns key w)
      | .error e => .error e
  | .INCREMENT =>
      match pyAdd (dGetD ns key (Value.int 0)) v with
      | .ok w => .ok (aset ns key w)
      | .error e => .error e

/-- The key loop of StateManager.update over the updates dict entries in
insertion order. -/
def applyUpdates (ns : List (String × Value)) :
    List (String × Value) → OperatorType → Except String (List (String × Value))
  | [], _ => .ok ns
  | (k, v) :: rest, op =>
      match applyOp ns k v op with
      | .ok ns2 => applyUpdates ns2 rest op
      | .error e => .error e

/-- StateManager.update(updates, operator): iterates updates.items()
(AttributeError when updates is not a dict), applies each pair to a copy
of the state, then commits the copy and increments the version.  An
exception leaves the manager unchanged (the copy is discarded). -/
def smUpdate (sm : StateManager) (updates : Value) (op : OperatorType) :
    Except String StateManager :=
  match updates with
  | .dict items =>
      match applyUpdates sm.state items op with
      | .ok ns => .ok { sm with state := ns, version := sm.version + 1 }
      | .error e => .error e
  | _ => .error "AttributeError: object has no attribute items"

/-- StateManager.checkpoint(): push a copy of the current state. -/
def checkpoint (sm : StateManager) : StateManager :=
  { sm with checkpoints := sm.checkpoints ++ [sm.state] }

/-- StateManager.rollback(steps): when the stack holds at least steps
checkpoints, set state to checkpoints[-steps] and truncate the stack to
checkpoints[:-steps]; otherwise do nothing.  The paired Value is the
Python return value of the method — always None, on every path.  The
negative indexing is the literal Python semantics, so steps = 0 passes
the length guard, reads checkpoints[0] (IndexError when empty) and
truncates to checkpoints[:0] = []. -/
def rollback (sm : StateManager) (steps : Nat) :
    Except String (StateManager × Value) :=
  if sm.checkpoints.length ≥ steps then
    match pyIndex sm.checkpoints (-(steps : Int)) with
    | some s =>
        .ok ({ sm with
                state := s,
                checkpoints := pySliceTo sm.checkpoints (-(steps : Int)) },
             Value.none)
    | Option.none => .error "IndexError: list index out of range"
  else .ok (sm, Value.none)

/-- Node kinds (class NodeType). -/
inductive NodeType where
  | AGENT | TOOL | CONDITION | PARALLEL | MERGE | HUMAN | TRANSFORM | VALIDATION
deriving DecidableEq, Repr

/-- class WorkflowNode.  The handler is the opaque external work: it is
modelled as a function of the attempt index (0-based, so one external
behaviour per retry) and the state snapshot, returning either a result
Value or a raised exception; a timeout of an attempt is one of the
exceptions.  condition_fn is the optional routing function of
conditional nodes. -/
structure WorkflowNode where
  id : String
  name : String
  type : NodeType
  handler : Nat → List (String × Value) → Except String Value
  max_retries : Int := 3
  retry_delay_ms : Int := 1000
  timeout_ms : Int := 300000
  condition_fn : Option (List (String × Value) → String) := Option.none

/-- The failure result dict returned by WorkflowNode.execute after the
final failed attempt, with its literal key insertion order. -/
def failureResult (e : String) (nodeId : String) : Value :=
  .dict [("error", .str e), ("node_id", .str nodeId), ("failed", .bool true)]

/-- The retry loop of WorkflowNode.execute over the remaining attempt
indices, also counting handler invocations.  A successful attempt
returns its result at once; an exception on the last attempt returns
the failure result; an exhausted index list (possible only when
max_retries is not positive, so the loop body never ran) falls off the
end of the Python function and returns None. -/
def nodeExecLoop (node : WorkflowNode) (state : List (String × Value)) :
    List Nat → Value × Nat
  | [] => (Value.none, 0)
  | attempt :: rest =>
      match node.handler attempt state with
      | .ok r => (r, 1)
      | .error e =>
          match rest with
          | [] => (failureResult e node.id, 1)
          | _ :: _ =>
              let (v, n) := nodeExecLoop node state rest
              (v, n + 1)

/-- WorkflowNode.execute(state): run the retry loop over
range(max_retries). -/
def nodeExecute (node : WorkflowNode) (state : List (String × Value)) : Value :=
  (nodeExecLoop node state (pyRange node.max_retries)).1

/-- Number of handler invocations WorkflowNode.execute performs. -/
def nodeAttempts (node : WorkflowNode) (state : List (String × Value)) : Nat :=
  (nodeExecLoop node state (pyRange node.max_retries)).2

/-- WorkflowNode.route(state): the routing function when configured,
else the fixed sentinel label. -/
def route (node : WorkflowNode) (state : List (String × Value)) : String :=
  match node.condition_fn with
  | some f => f state
  | Option.none => "default"

/-- class WorkflowEdge. -/
structure WorkflowEdge where
  from_node : String
  to_node : String
  condition : Option String := Option.none
deriving DecidableEq, Repr

/-- class WorkflowGraph: node dict, edge list, entry point, compiled
flag, and the adjacency attribute which exists only once compile has
assigned it. -/
structure WorkflowGraph where
  workflow_id : String
  workflow_type : String
  nodes : List (String × WorkflowNode) := []
  edges : List WorkflowEdge := []
  entry_point : Option String := Option.none
  is_compiled : Bool := false
  adjacency : Option (List (String × List WorkflowEdge)) := Option.none

/-- WorkflowGraph.add_node. -/
def add_node (g : WorkflowGraph) (node : WorkflowNode) : WorkflowGraph :=
  { g with nodes := aset g.nodes node.id node, is_compiled := false }

/-- WorkflowGraph.add_edge. -/
def add_edge (g : WorkflowGraph) (edge : WorkflowEdge) : WorkflowGraph :=
  { g with edges := g.edges ++ [edge], is_compiled := false }

/-- WorkflowGraph.set_entry_point. -/
def set_entry_point (g : WorkflowGraph) (nodeId : String) : WorkflowGraph :=
  { g with entry_point := some nodeId, is_compiled := false }

/-- The entry-point guard of compile: true when the entry point is unset
(None or the falsy empty string) or names no node. -/
def entryBad (g : WorkflowGraph) : Bool :=
  match g.entry_point with
  | Option.none => true
  | some ep => ep = "" || (alookup g.nodes ep).isNone

/-- The edge-validation loop of compile: the first edge whose endpoint
names no node yields the error message, in source order. -/
def validate_edges (nodes : List (String × WorkflowNode)) :
    List WorkflowEdge → Option String
  | [] => Option.none
  | e :: rest =>
      if (alookup nodes e.from_node).isNone then
        some ("Edge from unknown node: " ++ e.from_node)
      else if (alookup nodes e.to_node).isNone then
        some ("Edge to unknown node: " ++ e.to_node)
      else validate_edges nodes rest

/-- The adjacency-building loop of compile: for each edge in order,
default its source key to the empty list then append the edge. -/
def buildAdjacency (edges : List WorkflowEdge) :
    List (String × List WorkflowEdge) :=
  edges.foldl
    (fun adj e => aset adj e.from_node (dGetD adj e.from_node [] ++ [e])) []

/-- WorkflowGraph.compile(): validate the entry point and every edge
endpoint, raising ValueError before any mutation when invalid; on
success assign the adjacency and set the compiled flag.  The result
pairs the raised message (when any) with the graph after the call, so
the error cases show the graph unchanged — no partial adjacency. -/
def compile (g : WorkflowGraph) : Option String × WorkflowGraph :=
  if entryBad g then (some "Entry point must be set and valid", g)
  else
    match validate_edges g.nodes g.edges with
    | some msg => (some msg, g)
    | Option.none =>
        (Option.none,
         { g with adjacency := some (buildAdjacency g.edges),
                  is_compiled := true })

/-- Placeholder for datetime.now().isoformat(): wall-clock time is
opaque to every claim, so it is modelled as a constant string. -/
def nowIso : String := "1970-01-01T00:00:00"

/-- One entry of WorkflowGraph.execution_log. -/
structure LogEntry where
  iteration : Nat
  node_id : String
  node_name : String
  timestamp : String
deriving DecidableEq, Repr

/-- Python obj.get(key, default): dict lookup with default when obj is a
dict, AttributeError otherwise. -/
def pyGetD (v : Value) (key : String) (dflt : Value) : Except String Value :=
  match v with
  | .dict d => .ok (dGetD d key dflt)
  | _ => .error "AttributeError: object has no attribute get"

/-- The body of the while loop of WorkflowGraph.execute, for one visit of
current at the given (already advanced) iteration number: look the node
up (KeyError when absent), append the log entry, write current_node into
the state, run the node, merge a truthy result into the state, append an
error record when the result carries a truthy failed flag, then check
should_continue and route along the adjacency — a conditional node
filters its outgoing edges by the routed label, every other node takes
the FIRST outgoing edge.  The outcome is the log entry, the state
manager after the visit, and the next node id (None models every break
of the loop); a raised exception aborts the whole run. -/
def execStep (nodes : List (String × WorkflowNode))
    (adj : List (String × List WorkflowEdge))
    (iteration : Nat) (current : String) (sm : StateManager) :
    Except String (LogEntry × StateManager × Option String) :=
  match alookup nodes current with
  | Option.none => .error ("KeyError: " ++ current)
  | some node =>
      let entry : LogEntry :=
        ⟨iteration, current, node.name, nowIso⟩
      match smUpdate sm (.dict [("current_node", .str current)]) .OVERRIDE with
      | .error e => .error e
      | .ok sm1 =>
          let result := nodeExecute node sm1.state
          match (if result.truthy then smUpdate sm1 result .MERGE
                 else .ok sm1) with
          | .error e => .error e
          | .ok sm2 =>
              match pyGet result "failed" with
              | .error e => .error e
              | .ok failedVal =>
                  match (if failedVal.truthy then
                           match pyGet result "error" with
                           | .ok errVal =>
                               smUpdate sm2
                                 (.dict [("errors",
                                   .dict [("node", .str current),
                                          ("error", errVal),
                                          ("timestamp", .str nowIso)])])
                                 .APPEND
                           | .error e => .error e
                         else .ok sm2) with
                  | .error e => .error e
                  | .ok sm3 =>
                      if !(dGetD sm3.state "should_continue"
                             (Value.bool true)).truthy then
                        .ok (entry, sm3, Option.none)
                      else
                        let next_edges := dGetD adj current []
                        match next_edges with
                        | [] => .ok (entry, sm3, Option.none)
                        | _ :: _ =>
                            let next_edges :=
                              if node.type = NodeType.CONDITION then
                                next_edges.filter
                                  (fun e => e.condition = some (route node sm3.state))
                              else next_edges
                            match next_edges with
                            | [] => .ok (entry, sm3, Option.none)
                            | e :: _ => .ok (entry, sm3, some e.to_node)

/-- The iteration cap of WorkflowGraph.execute. -/
def max_iterations : Nat := 1000

/-- The while loop of WorkflowGraph.execute: fuel is the number of
iterations still allowed below the cap (so the loop condition
iteration < max_iterations is fuel > 0) and an empty current node id is
falsy, ending the loop.  Returns the state manager, the execution log
and the final value of the iteration counter. -/
def execLoop (nodes : List (String × WorkflowNode))
    (adj : List (String × List WorkflowEdge)) :
    Nat → Nat → String → StateManager → List LogEntry →
    Except String (StateManager × List LogEntry × Nat)
  | 0, iteration, _, sm, log => .ok (sm, log, iteration)
  | fuel + 1, iteration, current, sm, log =>
      if current = "" then .ok (sm, log, iteration)
      else
        match execStep nodes adj (iteration + 1) current sm with
        | .error e => .error e
        | .ok (entry, sm2, Option.none) =>
            .ok (sm2, log ++ [entry], iteration + 1)
        | .ok (entry, sm2, some nxt) =>
            execLoop nodes adj fuel (iteration + 1) nxt sm2 (log ++ [entry])

/-- WorkflowGraph.execute(initial_state): raises ValueError when the
graph is not compiled, otherwise runs the loop from the entry point
(None modelled by the falsy empty string) with a fresh StateManager.
The unreachable case of a compiled graph without an adjacency attribute
is modelled as the AttributeError Python would raise. -/
def graphExecute (g : WorkflowGraph) (initial : List (String × Value)) :
    Except String (StateManager × List LogEntry × Nat) :=
  if !g.is_compiled then .error "ValueError: Graph must be compiled before execution"
  else
    match g.adjacency with
    | Option.none => .error "AttributeError: object has no attribute adjacency"
    | some adj =>
        execLoop g.nodes adj max_iterations 0 (g.entry_point.getD "")
          ⟨initial, [], 0⟩ []

/-- class WorkflowTemplate (external collaborator): identity plus the
graph-building function. -/
structure WorkflowTemplate where
  template_id : String
  template_name : String
  description : String
  build_graph : Value → WorkflowGraph

/-- The initial WorkflowState dict built by
WorkflowOrchestrator.create_workflow, in source key order.  started_at
is an opaque timestamp. -/
def initial_workflow_state (wid ttype pid request : String)
    (userContext : Value) : List (String × Value) :=
  [("workflow_id", .str wid),
   ("workflow_type", .str ttype),
   ("project_id", .str pid),
   ("started_at", .str nowIso),
   ("current_node", .str ""),
   ("user_request", .str request),
   ("user_context", userContext),
   ("tasks", .list []),
   ("completed_tasks", .list []),
   ("failed_tasks", .list []),
   ("agent_assignments", .dict []),
   ("agent_outputs", .dict []),
   ("results", .list []),
   ("files_created", .list []),
   ("files_modified", .list []),
   ("debate_results", .list []),
   ("quality_checks", .list []),
   ("errors", .list []),
   ("retry_count", .int 0),
   ("total_tokens_used", .int 0),
   ("execution_time_ms", .int 0),
   ("next_action", Value.none),
   ("should_continue", .bool true)]

/-- WorkflowOrchestrator.create_workflow: look the template up in the
registry — raising ValueError naming the template when absent (the
not-found path under scrutiny) — then build and compile the graph
(compile errors propagate) and construct the initial state.  The result
triple is (the returned workflow_id, the graph registered into
active_workflows, the initial state handed to the scheduled execution
task); the background task itself is modelled separately by
run_workflow. -/
def create_workflow (registry : List (String × WorkflowTemplate))
    (template_id project_id user_request : String) (config : Value) :
    Except String (String × WorkflowGraph × List (String × Value)) :=
  match alookup registry template_id with
  | Option.none => .error ("ValueError: Unknown template: " ++ template_id)
  | some t =>
      let config := if config.truthy then config else .dict []
      let graph := t.build_graph config
      match compile graph with
      | (some e, _) => .error ("ValueError: " ++ e)
      | (Option.none, g) =>
          match pyGetD config "context" (.dict []) with
          | .error e => .error e
          | .ok ctx =>
              .ok (g.workflow_id, g,
                   initial_workflow_state g.workflow_id template_id project_id
                     user_request ctx)

/-- One record of WorkflowOrchestrator.execution_history: a completed
run stores the final state and the execution log, a faulted run stores
the error string instead. -/
structure HistoryRecord where
  workflow_id : String
  workflow_type : String
  final_state : Option (List (String × Value))
  execution_log : List LogEntry
  error : Option String

/-- WorkflowOrchestrator._execute_workflow: run the graph, catching any
exception at this boundary; success stores the final state (with the
opaque elapsed time written into execution_time_ms) and the log,
failure stores the error.  Either way the run becomes one history
record. -/
def run_workflow (g : WorkflowGraph) (initial : List (String × Value)) :
    HistoryRecord :=
  match graphExecute g initial with
  | .ok (sm, log, _) =>
      { workflow_id := g.workflow_id, workflow_type := g.workflow_type,
        final_state := some (aset sm.state "execution_time_ms" (.int 0)),
        execution_log := log, error := Option.none }
  | .error e =>
      { workflow_id := g.workflow_id, workflow_type := g.workflow_type,
        final_state := Option.none, execution_log := [], error := some e }

/-- WorkflowOrchestrator.get_workflow_status, projected to the status
field of the dict the source builds (the other fields echo the record):
a workflow in active_workflows is running; otherwise the first matching
history record reports completed when it stored a final state and
failed when it stored an error; an unknown id yields None — the
not-found condition. -/
def get_workflow_status (activeIds : List String)
    (history : List HistoryRecord) (wid : String) : Option String :=
  if wid ∈ activeIds then some "running"
  else
    match history.find? (fun r => r.workflow_id = wid) with
    | some r => some (if r.final_state.isSome then "completed" else "failed")
    | Option.none => Option.none

/-! ### General lemmas about the dict and stack primitives -/

theorem alookup_aset_self {α : Type} (d : List (String × α)) (k : String) (v : α) :
    alookup (aset d k v) k = some v := by
  induction d with
  | nil => simp [aset, alookup]
  | cons p rest ih =>
      by_cases h : p.1 = k
      · simp [aset, h, alookup]
      · simp [aset, h, alookup, ih]

theorem alookup_aset_ne {α : Type} (d : List (String × α)) (k k' : String) (v : α)
    (h : k' ≠ k) : alookup (aset d k v) k' = alookup d k' := by
  induction d with
  | nil =>
      simp only [aset, alookup]
      rw [if_neg (fun hh => h hh.symm)]
  | cons p rest ih =>
      simp only [aset, alookup]
      by_cases hp : p.1 = k
      · rw [if_pos hp]
        simp only [alookup]
        rw [if_neg (fun hh => h hh.symm),
            if_neg (fun hh => h (hp.symm.trans hh).symm)]
      · rw [if_neg hp]
        simp only [alookup]
        by_cases hq : p.1 = k'
        · rw [if_pos hq, if_pos hq]
        · rw [if_neg hq, if_neg hq, ih]

theorem aset_of_not_mem {α : Type} (d : List (String × α)) (k : String) (v : α)
    (h : alookup d k = Option.none) : aset d k v = d ++ [(k, v)] := by
  induction d with
  | nil => simp [aset]
  | cons p rest ih =>
      simp only [alookup] at h
      by_cases hp : p.1 = k
      · simp [hp] at h
      · simp only [aset, hp, if_false, List.cons_append, List.cons.injEq, true_and]
        exact ih (by simpa [hp] using h)

/-! ### Fixtures: concrete nodes and graphs used as test inputs -/

/-- A fan-out node whose handler returns the empty update. -/
def nodeA : WorkflowNode :=
  { id := "a", name := "A", type := .PARALLEL, handler := fun _ _ => .ok (.dict []) }

def nodeB : WorkflowNode :=
  { id := "b", name := "B", type := .AGENT, handler := fun _ _ => .ok (.dict []) }

def nodeC : WorkflowNode :=
  { id := "c", name := "C", type := .AGENT, handler := fun _ _ => .ok (.dict []) }

/-- A three-node graph with a fan-out node a and the two outgoing edges
a to b and a to c, built through the graph API. -/
def fanoutRaw : WorkflowGraph :=
  add_edge (add_edge (set_entry_point (add_node (add_node (add_node
    { workflow_id := "wf1", workflow_type := "t" } nodeA) nodeB) nodeC) "a")
    { from_node := "a", to_node := "b" }) { from_node := "a", to_node := "c" }

def fanoutGraph : WorkflowGraph := (compile fanoutRaw).2

/-- The node of the cyclic fixture: its handler returns the empty
update, so it never writes should_continue. -/
def loopNode : WorkflowNode :=
  { id := "a", name := "A", type := .AGENT, handler := fun _ _ => .ok (.dict []) }

/-- A one-node cyclic graph: the single edge points back at the node and
no handler ever writes should_continue. -/
def loopGraph : WorkflowGraph :=
  (compile (add_edge (set_entry_point (add_node
    { workflow_id := "wf2", workflow_type := "t" } loopNode) "a")
    { from_node := "a", to_node := "a" })).2

/-- A node whose handler raises on every attempt, with the default
max_retries of 3. -/
def failNode : WorkflowNode :=
  { id := "n", name := "N", type := .AGENT, handler := fun _ _ => .error "boom" }

def failGraph : WorkflowGraph :=
  (compile (set_entry_point
    (add_node { workflow_id := "wf3", workflow_type := "t" } failNode) "n")).2

/-- A node whose handler succeeds at once but returns None. -/
def noneNode : WorkflowNode :=
  { id := "m", name := "M", type := .AGENT, handler := fun _ _ => .ok Value.none }

def noneGraph : WorkflowGraph :=
  (compile (set_entry_point
    (add_node { workflow_id := "wf4", workflow_type := "t" } noneNode) "m")).2

/-- A manager with two distinct checkpoints (index 0 then index 1, in
the order they were taken). -/
def smTwo : StateManager :=
  { state := [("x", .int 9)],
    checkpoints := [[("v", .int 0)], [("v", .int 1)]], version := 5 }

/-- A manager with an empty checkpoint stack. -/
def smNoCp : StateManager :=
  { state := [("x", .int 9)], checkpoints := [], version := 5 }

/-! ### C4 — rollback with 1 le k le n -/

/-- C4 counterexample: with two distinct checkpoints, rollback(1)
restores the state to checkpoint index 1 (the popped snapshot), while
the checkpoint then on top of the stack is checkpoint index 0, a
different snapshot — so the claim that the restored state is the
snapshot then on top of the stack is false. -/
theorem C4_counterexample :
    rollback smTwo 1 =
      .ok ({ state := [("v", .int 1)], checkpoints := [[("v", .int 0)]],
             version := 5 }, Value.none)
    ∧ ([("v", Value.int 1)] : List (String × Value)) ≠ [("v", Value.int 0)] := by
  refine ⟨rfl, ?_⟩
  simp

/-- C4 (amended): for 1 le k le n, rollback(k) sets the state to the
snapshot taken at checkpoint n-k (0-indexed) and truncates the stack to
the first n-k checkpoints; the restored snapshot is itself removed from
the stack (it is the deepest popped checkpoint, not the new top). -/
theorem C4_rollback_restores_nk (sm : StateManager) (k : Nat)
    (h1 : 1 ≤ k) (h2 : k ≤ sm.checkpoints.length) :
    rollback sm k =
      .ok ({ sm with
              state := sm.checkpoints.get
                ⟨sm.checkpoints.length - k, by omega⟩,
              checkpoints := sm.checkpoints.take (sm.checkpoints.length - k) },
           Value.none) := by
  have hidx : ((sm.checkpoints.length : Int) + -(k : Int)).toNat
      = sm.checkpoints.length - k := by omega
  have hnonneg : (0 : Int) ≤ (sm.checkpoints.length : Int) + -(k : Int) := by
    omega
  have hneg : ¬ ((0 : Int) ≤ -(k : Int)) := by omega
  unfold rollback
  rw [if_pos h2]
  unfold pyIndex pySliceTo
  rw [if_neg hneg, if_pos hnonneg, if_neg hneg, hidx]
  rw [List.get?_eq_get (by omega)]

/-- Witness for C4: rollback(2) on the two-checkpoint manager restores
checkpoint index 0 and empties the stack. -/
theorem C4_witness :
    rollback smTwo 2 =
      .ok ({ state := [("v", .int 0)], checkpoints := [], version := 5 },
           Value.none) := by
  have h := C4_rollback_restores_nk smTwo 2 (by decide) (by decide)
  simpa using h

/-! ### C5 — rollback with fewer than k checkpoints -/

/-- C5 counterexample: rollback(1) on a manager with no checkpoints
returns normally with the manager unchanged and the same Python return
value None that a successful rollback returns — no exception is raised
and no condition value is produced, so the failure is not reported to
the caller in any way. -/
theorem C5_counterexample :
    rollback smNoCp 1 = .ok (smNoCp, Value.none)
    ∧ rollback smTwo 2 =
        .ok ({ state := [("v", .int 0)], checkpoints := [], version := 5 },
             Value.none) :=
  ⟨rfl, rfl⟩

/-- C5 (amended): rollback(k) with fewer than k checkpoints leaves the
state and the checkpoint stack unchanged, raises nothing and returns the
same value (None) as every other call — a silent no-op that reports no
condition. -/
theorem C5_underflow_silent_noop (sm : StateManager) (k : Nat)
    (h : sm.checkpoints.length < k) :
    rollback sm k = .ok (sm, Value.none) := by
  unfold rollback
  rw [if_neg (by omega)]

/-- Witness for C5. -/
theorem C5_witness : rollback smNoCp 1 = .ok (smNoCp, Value.none) :=
  C5_underflow_silent_noop smNoCp 1 (by decide)

/-! ### C9 — rollback(0) -/

/-- C9: rollback(0) is not a no-op.  The length guard always passes,
the Python index -0 = 0 reads the FIRST (oldest) checkpoint and the
slice checkpoints[:-0] = checkpoints[:0] empties the stack; on an empty
stack the index access raises an uncaught IndexError. -/
theorem C9_rollback_zero :
    (∀ (sm : StateManager) (h : sm.checkpoints ≠ []),
        rollback sm 0 =
          .ok ({ sm with state := sm.checkpoints.head h, checkpoints := [] },
               Value.none))
    ∧ (∀ sm : StateManager, sm.checkpoints = [] →
        rollback sm 0 = .error "IndexError: list index out of range") := by
  constructor
  · intro sm h
    obtain ⟨st, cps, ver⟩ := sm
    cases cps with
    | nil => exact absurd rfl h
    | cons c rest => rfl
  · intro sm h
    obtain ⟨st, cps, ver⟩ := sm
    simp only at h
    subst h
    rfl

/-- Witness for C9: both branches at concrete managers. -/
theorem C9_witness :
    rollback smTwo 0 =
      .ok ({ state := [("v", .int 0)], checkpoints := [], version := 5 },
           Value.none)
    ∧ rollback smNoCp 0 = .error "IndexError: list index out of range" :=
  ⟨by simpa using C9_rollback_zero.1 smTwo (List.cons_ne_nil _ _),
   C9_rollback_zero.2 smNoCp rfl⟩

/-! ### C6 — operators on an absent key -/

theorem alookup_append_none {α : Type} (a b : List (String × α)) (k : String)
    (h : alookup a k = Option.none) : alookup (a ++ b) k = alookup b k := by
  induction a with
  | nil => rfl
  | cons p rest ih =>
      simp only [alookup] at h ⊢
      by_cases hp : p.1 = k
      · simp [hp] at h
      · rw [if_neg hp] at h ⊢
        exact ih h

theorem foldl_aset_of_nodup {α : Type} :
    ∀ (m acc : List (String × α)),
      (∀ kv ∈ m, alookup acc kv.1 = Option.none) →
      (m.map Prod.fst).Nodup →
      m.foldl (fun a kv => aset a kv.1 kv.2) acc = acc ++ m := by
  intro m
  induction m with
  | nil => intro acc _ _; simp
  | cons kv rest ih =>
      intro acc habs hnd
      have h0 : alookup acc kv.1 = Option.none := habs kv (by simp)
      have hstep : aset acc kv.1 kv.2 = acc ++ [kv] := by
        rw [aset_of_not_mem _ _ _ h0]
      have hnd0 : (kv.1 :: rest.map Prod.fst).Nodup := by simpa using hnd
      have hnd' : (rest.map Prod.fst).Nodup := (List.nodup_cons.mp hnd0).2
      have hhd : kv.1 ∉ rest.map Prod.fst := (List.nodup_cons.mp hnd0).1
      have habs' : ∀ kv' ∈ rest, alookup (acc ++ [kv]) kv'.1 = Option.none := by
        intro kv' hkv'
        rw [alookup_append_none _ _ _ (habs kv' (by simp [hkv']))]
        have hne : kv.1 ≠ kv'.1 := by
          intro hcontra
          exact hhd (hcontra ▸ List.mem_map_of_mem Prod.fst hkv')
        simp [alookup, hne]
      calc (kv :: rest).foldl (fun a p => aset a p.1 p.2) acc
          = rest.foldl (fun a p => aset a p.1 p.2) (acc ++ [kv]) := by
            simp [List.foldl_cons, hstep]
        _ = (acc ++ [kv]) ++ rest := ih (acc ++ [kv]) habs' hnd'
        _ = acc ++ kv :: rest := by simp

/-- C6 counterexample: on an absent key, the append operator with a
list value concatenates the list itself — the update with value
[1, 2] yields the two-element sequence [1, 2], not a single-element
sequence containing the value. -/
theorem C6_counterexample :
    smUpdate { state := [], checkpoints := [], version := 0 }
        (.dict [("k", .list [.int 1, .int 2])]) .APPEND =
      .ok { state := [("k", .list [.int 1, .int 2])], checkpoints := [],
            version := 1 }
    ∧ ([Value.int 1, Value.int 2].length = 1 → False) :=
  ⟨rfl, by decide⟩

/-- C6 (amended): on a key absent from the snapshot, append with a
non-list value yields the single-element sequence [value], append with
a list value yields that list itself (its elements become the field),
merge with a mapping (no duplicate keys) yields exactly that mapping,
and increment with an integer yields exactly the increment value. -/
theorem C6_absent_key_operators (sm : StateManager) (k : String)
    (hk : alookup sm.state k = Option.none) :
    (∀ v : Value, v.isList = false →
        smUpdate sm (.dict [(k, v)]) .APPEND =
          .ok { sm with state := aset sm.state k (.list [v]),
                        version := sm.version + 1 })
    ∧ (∀ l : List Value,
        smUpdate sm (.dict [(k, .list l)]) .APPEND =
          .ok { sm with state := aset sm.state k (.list l),
                        version := sm.version + 1 })
    ∧ (∀ m : List (String × Value), (m.map Prod.fst).Nodup →
        smUpdate sm (.dict [(k, .dict m)]) .MERGE =
          .ok { sm with state := aset sm.state k (.dict m),
                        version := sm.version + 1 })
    ∧ (∀ i : Int,
        smUpdate sm (.dict [(k, .int i)]) .INCREMENT =
          .ok { sm with state := aset sm.state k (.int i),
                        version := sm.version + 1 }) := by
  refine ⟨?_, ?_, ?_, ?_⟩
  · intro v hv
    simp [smUpdate, applyUpdates, applyOp, dGetD, hk, hv, pyAdd]
  · intro l
    simp [smUpdate, applyUpdates, applyOp, dGetD, hk, Value.isList, pyAdd]
  · intro m hm
    have hfold : m.foldl (fun a kv => aset a kv.1 kv.2) ([] : List (String × Value)) = m := by
      simpa using foldl_aset_of_nodup m [] (by intro kv _; rfl) hm
    simp [smUpdate, applyUpdates, applyOp, dGetD, hk, pyMergeVals, hfold]
  · intro i
    simp [smUpdate, applyUpdates, applyOp, dGetD, hk, pyAdd]

/-- Witness for C6: the three operators on the absent key of an empty
snapshot, at concrete values. -/
theorem C6_witness :
    smUpdate { state := [], checkpoints := [], version := 0 }
        (.dict [("k", .int 7)]) .APPEND =
      .ok { state := [("k", .list [.int 7])], checkpoints := [], version := 1 }
    ∧ smUpdate { state := [], checkpoints := [], version := 0 }
        (.dict [("k", .dict [("a", .int 1)])]) .MERGE =
      .ok { state := [("k", .dict [("a", .int 1)])], checkpoints := [],
            version := 1 }
    ∧ smUpdate { state := [], checkpoints := [], version := 0 }
        (.dict [("k", .int 5)]) .INCREMENT =
      .ok { state := [("k", .int 5)], checkpoints := [], version := 1 } := by
  have h := C6_absent_key_operators
    { state := [], checkpoints := [], version := 0 } "k" rfl
  refine ⟨?_, ?_, ?_⟩
  · simpa using h.1 (.int 7) rfl
  · simpa using h.2.2.1 [("a", .int 1)] (by simp)
  · simpa using h.2.2.2 5

/-! ### C7 — unknown template / unknown instance -/

/-- C7 counterexample: create_workflow on an unregistered template id
raises ValueError (modelled as the error branch) — the condition
escapes to the caller as an exception instead of being returned as a
not-found value. -/
theorem C7_counterexample :
    create_workflow [] "tid" "p" "r" (.dict []) =
      .error "ValueError: Unknown template: tid" := rfl

/-- C7 (amended): get_workflow_status on an id that is neither active
nor in the history returns the explicit not-found value None and never
faults; create_workflow on an unregistered template id raises a
ValueError naming the template, which escapes to the caller, rather
than returning a not-found value. -/
theorem C7_not_found_paths :
    (∀ (registry : List (String × WorkflowTemplate))
       (tid pid req : String) (config : Value),
        alookup registry tid = Option.none →
        create_workflow registry tid pid req config =
          .error ("ValueError: Unknown template: " ++ tid))
    ∧ (∀ (activeIds : List String) (history : List HistoryRecord)
         (wid : String),
        wid ∉ activeIds → (∀ r ∈ history, r.workflow_id ≠ wid) →
        get_workflow_status activeIds history wid = Option.none) := by
  constructor
  · intro registry tid pid req config h
    unfold create_workflow
    rw [h]
  · intro activeIds history wid h1 h2
    unfold get_workflow_status
    rw [if_neg h1]
    have hf : history.find? (fun r => r.workflow_id = wid) = Option.none := by
      rw [List.find?_eq_none]
      intro r hr
      simpa using h2 r hr
    rw [hf]

/-- Witness for C7. -/
theorem C7_witness :
    create_workflow [] "t1" "p" "r" Value.none =
      .error "ValueError: Unknown template: t1"
    ∧ get_workflow_status [] [] "w1" = Option.none :=
  ⟨C7_not_found_paths.1 [] "t1" "p" "r" Value.none rfl,
   C7_not_found_paths.2 [] [] "w1" (by simp) (by simp)⟩

/-! ### C8 — compile -/

theorem validate_edges_none_iff (nodes : List (String × WorkflowNode)) :
    ∀ edges : List WorkflowEdge,
      validate_edges nodes edges = Option.none ↔
        ∀ e ∈ edges, (alookup nodes e.from_node).isSome
          ∧ (alookup nodes e.to_node).isSome := by
  intro edges
  induction edges with
  | nil => simp [validate_edges]
  | cons e rest ih =>
      simp only [validate_edges]
      by_cases h1 : (alookup nodes e.from_node).isNone
      · simp [h1, Option.isNone_iff_eq_none.mp h1]
      · by_cases h2 : (alookup nodes e.to_node).isNone
        · simp [h1, h2, Option.isNone_iff_eq_none.mp h2]
        · have hs1 : (alookup nodes e.from_node).isSome :=
            Option.isSome_iff_ne_none.mpr
              (fun hh => h1 (by simp [hh]))
          have hs2 : (alookup nodes e.to_node).isSome :=
            Option.isSome_iff_ne_none.mpr
              (fun hh => h2 (by simp [hh]))
          rw [if_neg h1, if_neg h2]
          simp [List.forall_mem_cons, hs1, hs2, ih]

/-- Membership is preserved and created by the adjacency fold of
compile. -/
theorem buildAdjacency_foldl_mem :
    ∀ (es : List WorkflowEdge) (adj : List (String × List WorkflowEdge))
      (e : WorkflowEdge),
      (e ∈ es ∨ ∃ l, alookup adj e.from_node = some l ∧ e ∈ l) →
      ∃ l, alookup
          (es.foldl
            (fun adj e => aset adj e.from_node (dGetD adj e.from_node [] ++ [e]))
            adj) e.from_node = some l ∧ e ∈ l := by
  intro es
  induction es with
  | nil =>
      intro adj e h
      rcases h with h | h
      · simp at h
      · exact h
  | cons e2 rest ih =>
      intro adj e h
      simp only [List.foldl_cons]
      apply ih
      rcases h with h | ⟨l, hl, hm⟩
      · rcases List.mem_cons.mp h with rfl | h
        · right
          exact ⟨dGetD adj e.from_node [] ++ [e],
            alookup_aset_self _ _ _, by simp⟩
        · left; exact h
      · right
        by_cases heq : e.from_node = e2.from_node
        · refine ⟨dGetD adj e2.from_node [] ++ [e2], ?_, ?_⟩
          · rw [heq, alookup_aset_self]
          · have : dGetD adj e2.from_node [] = l := by
              rw [dGetD, ← heq, hl]; rfl
            rw [this]
            exact List.mem_append_left _ hm
        · refine ⟨l, ?_, hm⟩
          rw [alookup_aset_ne _ _ _ _ heq]
          exact hl

theorem buildAdjacency_mem (edges : List WorkflowEdge) (e : WorkflowEdge)
    (h : e ∈ edges) :
    ∃ l, alookup (buildAdjacency edges) e.from_node = some l ∧ e ∈ l :=
  buildAdjacency_foldl_mem edges [] e (Or.inl h)

/-- C8: compile raises the structural ValueError when the entry point
is unset or names no node (conjunct 1, with conjunct 5 unfolding that
guard) or when some edge endpoint names no node (conjunct 2, with
conjunct 4 characterising edge validation); in both error cases the
returned graph is the input unchanged, so no partial adjacency is
built.  Otherwise it succeeds, assigns the adjacency, marks the graph
compiled, and the adjacency contains every edge under its source node
(conjunct 3). -/
theorem C8_compile (g : WorkflowGraph) :
    (entryBad g = true →
        compile g = (some "Entry point must be set and valid", g))
    ∧ (∀ m, entryBad g = false → validate_edges g.nodes g.edges = some m →
        compile g = (some m, g))
    ∧ (entryBad g = false → validate_edges g.nodes g.edges = Option.none →
        compile g =
          (Option.none,
           { g with adjacency := some (buildAdjacency g.edges),
                    is_compiled := true })
        ∧ ∀ e ∈ g.edges,
            ∃ l, alookup (buildAdjacency g.edges) e.from_node = some l ∧ e ∈ l)
    ∧ (validate_edges g.nodes g.edges = Option.none ↔
        ∀ e ∈ g.edges, (alookup g.nodes e.from_node).isSome
          ∧ (alookup g.nodes e.to_node).isSome)
    ∧ (entryBad g = true ↔
        g.entry_point = Option.none
        ∨ ∃ ep, g.entry_point = some ep
            ∧ (ep = "" ∨ alookup g.nodes ep = Option.none)) := by
  refine ⟨?_, ?_, ?_, validate_edges_none_iff g.nodes g.edges, ?_⟩
  · intro h
    simp [compile, h]
  · intro m h hm
    simp [compile, h, hm]
  · intro h hv
    refine ⟨by simp [compile, h, hv], ?_⟩
    intro e he
    exact buildAdjacency_mem g.edges e he
  · cases hep : g.entry_point with
    | none => simp [entryBad, hep]
    | some ep =>
        simp [entryBad, hep, Option.isNone_iff_eq_none]

/-- Witness for C8: an empty graph fails with the entry-point error and
stays unchanged; the fan-out fixture compiles with its full
adjacency. -/
theorem C8_witness :
    compile { workflow_id := "wfE", workflow_type := "t" } =
      (some "Entry point must be set and valid",
       { workflow_id := "wfE", workflow_type := "t" })
    ∧ compile fanoutRaw =
        (Option.none,
         { fanoutRaw with adjacency := some (buildAdjacency fanoutRaw.edges),
                          is_compiled := true }) :=
  ⟨(C8_compile _).1 rfl, ((C8_compile fanoutRaw).2.2.1 rfl rfl).1⟩

/-! ### The execution loop -/

/-- The current_node bookkeeping update of the loop never fails. -/
theorem smUpdate_override_single (sm : StateManager) (k : String) (v : Value) :
    smUpdate sm (.dict [(k, v)]) .OVERRIDE =
      .ok { sm with state := aset sm.state k v, version := sm.version + 1 } :=
  rfl

/-- Unfolding of one loop iteration while fuel remains and the current
node id is truthy. -/
theorem execLoop_succ (nodes : List (String × WorkflowNode))
    (adj : List (String × List WorkflowEdge)) (fuel it : Nat) (cur : String)
    (sm : StateManager) (log : List LogEntry) (h : cur ≠ "") :
    execLoop nodes adj (fuel + 1) it cur sm log =
      match execStep nodes adj (it + 1) cur sm with
      | .error e => .error e
      | .ok (entry, sm2, Option.none) => .ok (sm2, log ++ [entry], it + 1)
      | .ok (entry, sm2, some nxt) =>
          execLoop nodes adj fuel (it + 1) nxt sm2 (log ++ [entry]) := by
  simp only [execLoop]
  rw [if_neg h]

/-! ### C1 — routing of a non-branching node with several outgoing edges -/

/-- C1 counterexample: in the compiled fan-out fixture the PARALLEL node
a has the two outgoing edges a to b and a to c, yet the execution log of
a full run visits exactly a then b — node c, the target of the second
outgoing edge, is never executed. -/
theorem C1_counterexample :
    fanoutGraph.adjacency =
      some [("a", [{ from_node := "a", to_node := "b" },
                   { from_node := "a", to_node := "c" }])]
    ∧ (graphExecute fanoutGraph []).toOption.map
        (fun r => r.2.1.map LogEntry.node_id) = some ["a", "b"]
    ∧ ("c" ∈ ["a", "b"] → False) :=
  ⟨rfl, rfl, by decide⟩

/-- C1 (amended): whenever the loop leaves a visit of a non-branching
node with a successor, that successor is the target of the FIRST
outgoing edge of the node — the remaining outgoing edges contribute no
frontier members. -/
theorem C1_first_edge_only
    (nodes : List (String × WorkflowNode))
    (adj : List (String × List WorkflowEdge))
    (it : Nat) (current : String) (sm : StateManager) (node : WorkflowNode)
    (entry : LogEntry) (sm2 : StateManager) (nxt : String)
    (hnode : alookup nodes current = some node)
    (htype : node.type ≠ NodeType.CONDITION)
    (hstep : execStep nodes adj it current sm = .ok (entry, sm2, some nxt)) :
    (dGetD adj current []).head?.map WorkflowEdge.to_node = some nxt := by
  unfold execStep at hstep
  rw [hnode] at hstep
  simp only [] at hstep
  repeat' split at hstep
  all_goals simp_all

/-- Witness for C1: one step of the fan-out fixture at node a continues
to b, the first of the two targets. -/
theorem C1_witness :
    (dGetD (buildAdjacency fanoutRaw.edges) "a" []).head?.map
      WorkflowEdge.to_node = some "b" :=
  C1_first_edge_only fanoutGraph.nodes (buildAdjacency fanoutRaw.edges) 1 "a"
    { state := [], checkpoints := [], version := 0 } nodeA
    { iteration := 1, node_id := "a", node_name := "A", timestamp := nowIso }
    { state := [("current_node", .str "a")], checkpoints := [], version := 1 }
    "b" rfl (by decide) rfl

/-! ### C2 — the iteration cap on a cyclic graph -/

/-- If from every reachable configuration (characterised by the
invariant P) one step of the loop continues to another reachable
configuration, the loop runs its full fuel and returns normally with
the iteration counter advanced by exactly the fuel. -/
theorem execLoop_all_continue (nodes : List (String × WorkflowNode))
    (adj : List (String × List WorkflowEdge))
    (P : String → StateManager → Prop)
    (hne : ∀ cur sm, P cur sm → cur ≠ "")
    (hstep : ∀ it cur sm, P cur sm →
        ∃ e sm2 nxt, execStep nodes adj it cur sm = .ok (e, sm2, some nxt)
          ∧ P nxt sm2) :
    ∀ (fuel it : Nat) (cur : String) (sm : StateManager) (log : List LogEntry),
      P cur sm →
      ∃ sm2 log2,
        execLoop nodes adj fuel it cur sm log = .ok (sm2, log2, it + fuel) := by
  intro fuel
  induction fuel with
  | zero =>
      intro it cur sm log hP
      exact ⟨sm, log, by simp [execLoop]⟩
  | succ n ih =>
      intro it cur sm log hP
      obtain ⟨e, sm2, nxt, hs, hP2⟩ := hstep (it + 1) cur sm hP
      obtain ⟨sm3, log3, hrec⟩ := ih (it + 1) nxt sm2 (log ++ [e]) hP2
      refine ⟨sm3, log3, ?_⟩
      rw [execLoop_succ _ _ _ _ _ _ _ (hne cur sm hP), hs]
      show execLoop nodes adj n (it + 1) nxt sm2 (log ++ [e]) =
        Except.ok (sm3, log3, it + (n + 1))
      rw [hrec]
      have harith : it + 1 + n = it + (n + 1) := by omega
      rw [harith]

/-- C2 (amended): on a compiled graph where every reachable step
continues (no handler turns should_continue off, no terminal node and
no exception is reached), execution terminates by the fixed cap: it
returns normally after exactly 1000 iterations, and the orchestrator
records the run as completed — there is no distinct Aborted terminal
status, so hitting the cap is indistinguishable from normal completion
in the reported status. -/
theorem C2_cap_reports_completed (g : WorkflowGraph)
    (adj : List (String × List WorkflowEdge))
    (init : List (String × Value)) (P : String → StateManager → Prop)
    (hc : g.is_compiled = true) (ha : g.adjacency = some adj)
    (hne : ∀ cur sm, P cur sm → cur ≠ "")
    (hstep : ∀ it cur sm, P cur sm →
        ∃ e sm2 nxt, execStep g.nodes adj it cur sm = .ok (e, sm2, some nxt)
          ∧ P nxt sm2)
    (hP0 : P (g.entry_point.getD "") ⟨init, [], 0⟩) :
    ∃ sm2 log2, graphExecute g init = .ok (sm2, log2, 1000)
      ∧ get_workflow_status [] [run_workflow g init] g.workflow_id =
          some "completed" := by
  obtain ⟨sm2, log2, h⟩ := execLoop_all_continue g.nodes adj P hne hstep
    max_iterations 0 (g.entry_point.getD "") ⟨init, [], 0⟩ [] hP0
  have hg : graphExecute g init = .ok (sm2, log2, 1000) := by
    unfold graphExecute
    rw [if_neg (by simp [hc]), ha]
    simpa [max_iterations] using h
  refine ⟨sm2, log2, hg, ?_⟩
  unfold run_workflow
  rw [hg]
  unfold get_workflow_status
  simp [List.find?]

/-- Witness for C2: the one-node cyclic fixture runs exactly 1000
iterations, returns normally, and its history record reports
completed. -/
theorem C2_witness :
    (graphExecute loopGraph []).toOption.map (fun r => r.2.2) = some 1000
    ∧ get_workflow_status [] [run_workflow loopGraph []] "wf2" =
        some "completed" := by
  have h := C2_cap_reports_completed loopGraph
    [("a", [{ from_node := "a", to_node := "a" }])] []
    (fun cur sm => cur = "a" ∧
      (sm = ⟨[], [], 0⟩ ∨
        ∃ v, sm = ⟨[("current_node", Value.str "a")], [], v⟩))
    rfl rfl
    (by
      intro cur sm hp
      rw [hp.1]
      decide)
    (by
      intro it cur sm hp
      obtain ⟨hcur, hsm⟩ := hp
      subst hcur
      rcases hsm with rfl | ⟨v, rfl⟩
      · exact ⟨_, _, "a", rfl, rfl, Or.inr ⟨1, rfl⟩⟩
      · exact ⟨_, _, "a", rfl, rfl, Or.inr ⟨v + 1, rfl⟩⟩)
    ⟨rfl, Or.inl rfl⟩
  obtain ⟨sm2, log2, hg, hst⟩ := h
  exact ⟨by rw [hg]; rfl, hst⟩

set_option maxRecDepth 1000000 in
/-- C2 counterexample: the cyclic fixture terminates exactly at the cap
of 1000 iterations, yet the terminal status the orchestrator reports
for it is the ordinary completed — the same status as a normal run and
not a distinct aborted value. -/
theorem C2_counterexample :
    (graphExecute loopGraph []).toOption.map (fun r => r.2.2) = some 1000
    ∧ get_workflow_status [] [run_workflow loopGraph []] "wf2" =
        some "completed"
    ∧ get_workflow_status [] [run_workflow loopGraph []] "wf2" ≠
        some "aborted" := by
  refine ⟨by decide, by decide, by decide⟩

/-! ### C3 — a node whose handler raises on every attempt -/

/-- C3 (code bug): the node half of the claim holds — a handler that
raises on every attempt with max_retries 3 produces exactly 3 attempts
and then the failure result value, never an uncaught fault — but the
graph loop then applies that result to the state with the merge
operator, and spreading the string stored under the error key raises
TypeError inside StateManager.update, so the run dies with an uncaught
exception: the errors sequence never gains its entry and the instance
is stopped. -/
theorem C3_failure_result_crashes_merge :
    nodeExecute failNode (initial_workflow_state "wf3" "t" "p" "r" (.dict []))
      = failureResult "boom" "n"
    ∧ nodeAttempts failNode (initial_workflow_state "wf3" "t" "p" "r" (.dict []))
      = 3
    ∧ graphExecute failGraph (initial_workflow_state "wf3" "t" "p" "r" (.dict []))
      = .error "TypeError: object is not a mapping" :=
  ⟨rfl, rfl, rfl⟩

/-! ### C10 — None results crash the loop -/

/-- C10: Node.execute returns None whenever max_retries is not positive
(the retry loop body never runs) and whenever the first attempt
succeeds with a handler that returns None; and for any compiled graph
whose entry node's execute yields None, the run loop raises an uncaught
AttributeError at the result.get call that tests the failed flag. -/
theorem C10_none_result_attribute_error :
    (∀ (node : WorkflowNode) (st : List (String × Value)),
        node.max_retries ≤ 0 → nodeExecute node st = Value.none)
    ∧ (∀ (node : WorkflowNode) (st : List (String × Value)),
        0 < node.max_retries → node.handler 0 st = .ok Value.none →
        nodeExecute node st = Value.none)
    ∧ (∀ (g : WorkflowGraph) (adj : List (String × List WorkflowEdge))
         (init : List (String × Value)) (ep : String) (node : WorkflowNode),
        g.is_compiled = true → g.adjacency = some adj →
        g.entry_point = some ep → ep ≠ "" →
        alookup g.nodes ep = some node →
        nodeExecute node (aset init "current_node" (.str ep)) = Value.none →
        graphExecute g init =
          .error "AttributeError: object has no attribute get") := by
  refine ⟨?_, ?_, ?_⟩
  · intro node st h
    unfold nodeExecute pyRange
    rw [Int.toNat_of_nonpos h]
    rfl
  · intro node st hpos hh
    unfold nodeExecute pyRange
    obtain ⟨m, hm⟩ : ∃ m, node.max_retries.toNat = m + 1 :=
      ⟨node.max_retries.toNat - 1, by omega⟩
    rw [hm, List.range_succ_eq_map]
    simp [nodeExecLoop, hh]
  · intro g adj init ep node hc ha hep hne hlook hnone
    have hstep : execStep g.nodes adj 1 ep ⟨init, [], 0⟩ =
        .error "AttributeError: object has no attribute get" := by
      simp only [execStep, hlook, smUpdate_override_single, hnone,
        Value.truthy, pyGet, Bool.false_eq_true, if_false]
    unfold graphExecute
    rw [if_neg (by simp [hc]), ha, hep]
    show execLoop g.nodes adj 1000 0 ep
      { state := init, checkpoints := [], version := 0 } [] =
      Except.error "AttributeError: object has no attribute get"
    rw [show (1000 : Nat) = 999 + 1 from rfl]
    rw [execLoop_succ _ _ _ _ _ _ _ hne, Nat.zero_add, hstep]

/-- Witness for C10: all three parts at concrete inputs — a node with
max_retries 0, the None-returning node, and the compiled one-node graph
around it. -/
theorem C10_witness :
    nodeExecute { noneNode with max_retries := 0 } [] = Value.none
    ∧ nodeExecute noneNode [] = Value.none
    ∧ graphExecute noneGraph [] =
        .error "AttributeError: object has no attribute get" :=
  ⟨C10_none_result_attribute_error.1 _ [] (by decide),
   C10_none_result_attribute_error.2.1 noneNode [] (by decide) rfl,
   C10_none_result_attribute_error.2.2 noneGraph [] [] "m" noneNode rfl rfl rfl
     (by decide) rfl rfl⟩

end Workflow
